import Mathlib

/-!
Shallow embedding of the Synapse repository (browser extension + dashboard):
localStorage-based user-id bookkeeping, the background worker's payload
normalization, content-type detection, YouTube video detection and the
smart-save flows.  Definitions are transcribed from the JavaScript /
TypeScript sources; theorems settle the specification claims.
-/

namespace Synapse

/-- JS truthiness of a `localStorage.getItem` result: `null` and the empty
string are falsy, every other string is truthy. -/
def truthy : Option String → Bool
  | none => false
  | some s => s ≠ ""

/-- JS `a || b` on optional string values: returns `a` when truthy, else `b`. -/
def jsOr (a b : Option String) : Option String := if truthy a then a else b

/-- Model of `localStorage`: a partial map from keys to stored strings. -/
def Store := String → Option String

/-- `localStorage.setItem st k v`. -/
def setItem (st : Store) (k v : String) : Store :=
  fun k' => if k' = k then some v else st k'

/-- The empty `localStorage`. -/
def emptyStore : Store := fun _ => none

theorem setItem_same (st : Store) (k v : String) : setItem st k v k = some v := by
  simp [setItem]

theorem setItem_other (st : Store) (k v k' : String) (h : k' ≠ k) :
    setItem st k v k' = st k' := by
  simp [setItem, h]

/-! ## Extension-side storage utility (`src/unnamed/part_004`, `constants.js`) -/

namespace Extension

/-- `constants.js`: hardcoded MVP user id, shared by every install. -/
def USER_ID : String := "mvp_demo_user_2024"

/-- `part_004` (storage utilities) `getOrCreateUserId`: the MVP build ignores
both `localStorage` and Chrome storage and resolves to the constant
`USER_ID` (the dynamic multi-storage logic is commented out in the source). -/
def getOrCreateUserId (_localStorage : Store) (_chromeStorage : Store) : String :=
  USER_ID

end Extension

/-! ## Dashboard user-id utility (`src/dashboard/utils/userId.ts`) -/

namespace Dashboard

def USER_ID_KEY : String := "ai_mem_user_id"

def FALLBACK_KEYS : List String := ["recallhub_user_id", "synapse_user_id"]

/-- The `for (const key of FALLBACK_KEYS) { uid = getItem(key); if (uid) break }`
loop: starting from the current (falsy) `uid`, reassign from each key in turn,
stopping at the first truthy value. -/
def lookupFallbacks (st : Store) (uid : Option String) : List String → Option String
  | [] => uid
  | k :: ks =>
    let v := st k
    if truthy v then v else lookupFallbacks st v ks

/-- `getOrCreateUserId`: check `USER_ID_KEY`, then the fallback keys, then mint
a fresh UUID (passed in as `freshUUID`); on the fallback and fresh paths the id
is written back under `USER_ID_KEY`.  Returns the id and the updated storage. -/
def getOrCreateUserId (st : Store) (freshUUID : String) : String × Store :=
  let uid := st USER_ID_KEY
  let uid := if truthy uid then uid else lookupFallbacks st uid FALLBACK_KEYS
  if ¬ truthy uid then
    (freshUUID, setItem st USER_ID_KEY freshUUID)
  else
    let u := uid.getD ""
    if truthy (st USER_ID_KEY) then (u, st)
    else (u, setItem st USER_ID_KEY u)

/-- `getUserId`: `getItem(USER_ID_KEY) || getItem(FALLBACK_KEYS[0]) || getItem(FALLBACK_KEYS[1])`. -/
def getUserId (st : Store) : Option String :=
  jsOr (st USER_ID_KEY)
    (jsOr (st (FALLBACK_KEYS.get ⟨0, by decide⟩)) (st (FALLBACK_KEYS.get ⟨1, by decide⟩)))

/-- `setUserId`. -/
def setUserId (st : Store) (userId : String) : Store :=
  setItem st USER_ID_KEY userId

/-- `syncWithExtension`: `extensionId` is the (already `|| null`-normalized)
result of the `checkExtensionUserId` handshake.  Returns whether a sync
happened and the updated storage. -/
def syncWithExtension (st : Store) (extensionId : Option String) : Bool × Store :=
  let localId := getUserId st
  if truthy extensionId ∧ truthy localId ∧ extensionId ≠ localId then
    (true, setUserId st (extensionId.getD ""))
  else if truthy extensionId ∧ ¬ truthy localId then
    (true, setUserId st (extensionId.getD ""))
  else if truthy localId ∧ ¬ truthy extensionId then
    (false, st)
  else
    (false, st)

end Dashboard

/-! ## JavaScript values and the background worker (`src/extension/background.js`) -/

/-- A JavaScript value, as far as the extension code inspects one: strings,
numbers (modelled as integers), booleans, `null`, `undefined`, and plain
objects (association lists of fields). -/
inductive JSVal where
  | vStr (s : String)
  | vNum (n : Int)
  | vBool (b : Bool)
  | vNull
  | vUndefined
  | vObj (fields : List (String × JSVal))

/-- JS truthiness of a value. -/
def JSVal.truthy : JSVal → Bool
  | .vStr s => s ≠ ""
  | .vNum n => n ≠ 0
  | .vBool b => b
  | .vNull => false
  | .vUndefined => false
  | .vObj _ => true

/-- `typeof x === 'object'` (true for plain objects and for `null`). -/
def JSVal.isObjectType : JSVal → Bool
  | .vObj _ => true
  | .vNull => true
  | _ => false

def JSVal.isString : JSVal → Bool
  | .vStr _ => true
  | _ => false

def JSVal.isUndefined : JSVal → Bool
  | .vUndefined => true
  | _ => false

/-- A plain object (unlike `typeof x === 'object'`, not true for `null`). -/
def JSVal.isObj : JSVal → Bool
  | .vObj _ => true
  | _ => false

/-- Property read on an association list: first binding wins, absent keys give
`undefined`. -/
def lookupField : List (String × JSVal) → String → JSVal
  | [], _ => .vUndefined
  | (k', v) :: rest, k => if k = k' then v else lookupField rest k

/-- `x.k` property read. -/
def JSVal.objGet : JSVal → String → JSVal
  | .vObj fields, k => lookupField fields k
  | _, _ => .vUndefined

/-- Property write on an association list: replace the first binding of the
key, else append. -/
def setField : List (String × JSVal) → String → JSVal → List (String × JSVal)
  | [], k, v => [(k, v)]
  | (k', v') :: rest, k, v =>
    if k' = k then (k, v) :: rest else (k', v') :: setField rest k v

/-- `x.k = v` property write (a no-op on non-objects, as in sloppy-mode JS). -/
def JSVal.objSet : JSVal → String → JSVal → JSVal
  | .vObj fields, k, v => .vObj (setField fields k v)
  | other, _, _ => other

/-- `String(x)` coercion. -/
def JSVal.toJSString : JSVal → String
  | .vStr s => s
  | .vNum n => toString n
  | .vBool b => if b then "true" else "false"
  | .vNull => "null"
  | .vUndefined => "undefined"
  | .vObj _ => "[object Object]"

def jsonEscapeChar (c : Char) : String :=
  if c = '\\' then "\\\\"
  else if c = '"' then "\\\""
  else if c = '\n' then "\\n"
  else if c = '\t' then "\\t"
  else if c = '\r' then "\\r"
  else String.singleton c

def jsonQuote (s : String) : String :=
  "\"" ++ String.join (s.toList.map jsonEscapeChar) ++ "\""

mutual

/-- `JSON.stringify`: `undefined` is not serializable (`none`); object fields
with unserializable values are dropped. -/
def jsonStringify : JSVal → Option String
  | .vStr s => some (jsonQuote s)
  | .vNum n => some (toString n)
  | .vBool b => some (if b then "true" else "false")
  | .vNull => some "null"
  | .vUndefined => none
  | .vObj fields => some ("\x7b" ++ String.intercalate "," (jsonFields fields) ++ "\x7d")

def jsonFields : List (String × JSVal) → List String
  | [] => []
  | (k, v) :: rest =>
    match jsonStringify v with
    | none => jsonFields rest
    | some sv => (jsonQuote k ++ ":" ++ sv) :: jsonFields rest

end

/-- `JSON.stringify` as it is used in an assignment position. -/
def jsonStringifyD (v : JSVal) : String :=
  (jsonStringify v).getD "undefined"

/-- JS whitespace for `String.prototype.trim`. -/
def isJsSpace (c : Char) : Bool :=
  c = ' ' || c = '\t' || c = '\n' || c = '\r' || c = '\x0b' || c = '\x0c'

/-- `s.trim()`. -/
def jsTrim (s : String) : String :=
  String.mk (((s.toList.dropWhile isJsSpace).reverse.dropWhile isJsSpace).reverse)

namespace Background

/-- The `{ ok, message }` object passed to `sendResponse`, together with the
body POSTed to `http://localhost:8000/store` (`none` when no request is made). -/
structure BgResult where
  ok : Bool
  message : String
  request : Option JSVal

/-- Outcome of the `fetch` to the backend. -/
inductive FetchOutcome where
  | ok
  | httpErr (statusText : String)
  | threw (msg : String)

/-- `payload.text.total !== undefined || payload.text.by_type !== undefined ||
payload.text.items !== undefined || payload.text.count !== undefined`. -/
def looksLikeApiResponse (text : JSVal) : Bool :=
  !(text.objGet "total").isUndefined || !(text.objGet "by_type").isUndefined ||
  !(text.objGet "items").isUndefined || !(text.objGet "count").isUndefined

/-- The tail of the listener after normalization: the
`!payload.text || !payload.text.trim()` guard, then the `fetch` to `/store`. -/
def finishStore (payload : JSVal) (outcome : FetchOutcome) : BgResult :=
  let t := payload.objGet "text"
  if ¬ t.truthy ∨ jsTrim t.toJSString = "" then
    ⟨false, "No content to store", none⟩
  else
    match outcome with
    | .ok => ⟨true, "Page API data stored", some payload⟩
    | .httpErr st => ⟨false, "Failed to store: " ++ st, some payload⟩
    | .threw m => ⟨false, "Error: " ++ m, some payload⟩

/-- The `msg.action === 'page_api_data'` branch of the background worker's
`chrome.runtime.onMessage` listener. -/
def handlePageApiData (payload : JSVal) (outcome : FetchOutcome) : BgResult :=
  if payload.truthy ∧ (payload.objGet "text").truthy then
    if (payload.objGet "text").isObjectType then
      if looksLikeApiResponse (payload.objGet "text") then
        ⟨false, "Cannot store API response data", none⟩
      else
        finishStore
          (payload.objSet "text" (.vStr (jsonStringifyD (payload.objGet "text")))) outcome
    else if ¬ (payload.objGet "text").isString then
      -- `payload.text = String(payload.text || '')`; the text is truthy here,
      -- so the `|| ''` default is inert
      finishStore (payload.objSet "text" (.vStr (payload.objGet "text").toJSString)) outcome
    else
      finishStore payload outcome
  else
    ⟨false, "Missing text field in payload", none⟩

/-- The string the listener's normalization turns `payload.text` into. -/
def normalizedText (payload : JSVal) : String :=
  let t := payload.objGet "text"
  if t.isObjectType then jsonStringifyD t else t.toJSString

end Background

/-! ## Content-type detection (`src/unnamed/part_006`, content-detector.js) -/

/-- JS `domain.includes(sub)`. -/
def jsIncludes (s sub : String) : Bool := decide (sub.toList <:+: s.toList)

/-- JS `a || b` where the fallback is a plain string. -/
def jsOrD (a : Option String) (b : String) : String :=
  match a with
  | some s => if s ≠ "" then s else b
  | none => b

/-- A memory-item body POSTed to the backend (`/store` or `/api/memory`):
`user_id`, `content`, `url`, `title` and a `metadata` object.  `url` and
`title` are optional because the product formatters copy them straight from
the extracted product, where they can be `undefined` (an undefined field is
dropped from the JSON body by `JSON.stringify`). -/
structure MemoryPayload where
  user_id : String
  content : String
  url : Option String
  title : Option String
  metadata : JSVal

/-- Template-literal interpolation of a possibly-undefined string:
`${x}` renders `undefined` as the string `"undefined"`. -/
def jsTemplate : Option String → String
  | some s => s
  | none => "undefined"

/-- An optional DOM string carried into a metadata object (`null` when the
extractor found nothing). -/
def optJS : Option String → JSVal
  | some s => .vStr s
  | none => .vNull

/-- An optional numeric field carried into a metadata object. -/
def optJSNum : Option Int → JSVal
  | some n => .vNum n
  | none => .vNull

namespace Detector

/-- Presence of the five article indicators `isArticlePage` queries:
an `<article>` element, `[role="article"]`, `.post-content`,
`.article-content`, and `meta[property="og:type"][content="article"]`. -/
structure DomFlags where
  hasArticleElement : Bool
  hasRoleArticle : Bool
  hasPostContent : Bool
  hasArticleContent : Bool
  hasOgTypeArticle : Bool

/-- `isArticlePage`: some indicator is non-null. -/
def isArticlePage (d : DomFlags) : Bool :=
  d.hasArticleElement || d.hasRoleArticle || d.hasPostContent ||
  d.hasArticleContent || d.hasOgTypeArticle

inductive ContentType where
  | product
  | video
  | article
  | note
deriving DecidableEq

/-- The four extractors a detection can carry. -/
inductive Extractor where
  | extractProduct
  | extractVideo
  | extractArticle
  | extractGeneric
deriving DecidableEq

structure Detection where
  type : ContentType
  extractor : Extractor
deriving DecidableEq

/-- `detectContentType`, as a function of the page hostname and the DOM
article indicators. -/
def detectContentType (domain : String) (d : DomFlags) : Detection :=
  if jsIncludes domain "amazon." || jsIncludes domain "ebay." ||
     jsIncludes domain "shopify." || jsIncludes domain "etsy." then
    ⟨.product, .extractProduct⟩
  else if jsIncludes domain "youtube.com" || jsIncludes domain "vimeo.com" then
    ⟨.video, .extractVideo⟩
  else if isArticlePage d then
    ⟨.article, .extractArticle⟩
  else
    ⟨.note, .extractGeneric⟩

/-- The extractor that belongs to each content type, per the source's four
detection branches. -/
def matchingExtractor : ContentType → Extractor
  | .product => .extractProduct
  | .video => .extractVideo
  | .article => .extractArticle
  | .note => .extractGeneric

end Detector

/-! ## YouTube detector (`src/extension/utils/youtube-detector.js`) -/

namespace YouTube

/-- First match of `/[?&]v=([^&]+)/`: scan for `?v=` or `&v=` followed by at
least one non-`&` character; the capture is the maximal non-`&` run. -/
def scanWatchParam : List Char → Option (List Char)
  | [] => none
  | c :: rest =>
    if c = '?' ∨ c = '&' then
      match rest with
      | 'v' :: '=' :: t =>
        let cap := t.takeWhile (fun x => x ≠ '&')
        if cap.isEmpty then scanWatchParam rest else some cap
      | _ => scanWatchParam rest
    else scanWatchParam rest

/-- First match of a literal followed by at least one character other than
`stop` (the shape of `/youtu\.be\/([^?]+)/` and `/\/embed\/([^?]+)/`). -/
def scanAfterLiteral (lit : List Char) (stop : Char) : List Char → Option (List Char)
  | [] => none
  | l@(_ :: rest) =>
    if lit.isPrefixOf l then
      let cap := (l.drop lit.length).takeWhile (fun x => x ≠ stop)
      if cap.isEmpty then scanAfterLiteral lit stop rest else some cap
    else scanAfterLiteral lit stop rest

/-- `extractVideoId`: watch-URL `v=` parameter first, then `youtu.be/` short
URLs, then `/embed/` URLs; `null` input and empty strings give `null`. -/
def extractVideoId (url : Option String) : Option String :=
  match url with
  | none => none
  | some s =>
    if s = "" then none
    else
      match scanWatchParam s.toList with
      | some cap => some (String.mk cap)
      | none =>
        match scanAfterLiteral "youtu.be/".toList '?' s.toList with
        | some cap => some (String.mk cap)
        | none =>
          match scanAfterLiteral "/embed/".toList '?' s.toList with
          | some cap => some (String.mk cap)
          | none => none

/-- A detected video entry, with the fields the various extractors populate
(absent JS fields are `none`; `is_current` is only set by the current-video
extractor). -/
structure VideoData where
  video_id : String
  url : String
  title : String
  thumbnail : String
  channel : Option String
  duration : Option String
  views : Option String
  description : Option String
  is_current : Bool
deriving DecidableEq

/-- A `<a href*="youtube.com/watch">` / `<a href*="youtu.be/">` element, with
the pieces of the DOM `extractVideoFromLink` reads: `href`, the `title` and
`aria-label` attributes, the text of a title child element, the first image's
`src`/`data-src`, and the closest renderer's channel-name text. -/
structure LinkElem where
  href : String
  attrTitle : Option String
  ariaLabel : Option String
  titleText : Option String
  imgSrc : Option String
  channelText : Option String

/-- `extractVideoFromLink`. -/
def extractVideoFromLink (link : LinkElem) : Option VideoData :=
  match extractVideoId (some link.href) with
  | none => none
  | some videoId =>
    let thumbnail := link.imgSrc
    let title := jsOr link.attrTitle link.ariaLabel
    let title := if truthy title then title else link.titleText
    some
      { video_id := videoId
        url := "https://www.youtube.com/watch?v=" ++ videoId
        title := jsOrD title "YouTube Video"
        thumbnail := jsOrD thumbnail
          ("https://img.youtube.com/vi/" ++ videoId ++ "/maxresdefault.jpg")
        channel := link.channelText
        duration := none
        views := none
        description := none
        is_current := false }

/-- An `<iframe src*="youtube.com/embed">` element. -/
structure IframeElem where
  src : String
  title : Option String

/-- `extractVideoFromIframe`. -/
def extractVideoFromIframe (iframe : IframeElem) : Option VideoData :=
  match extractVideoId (some iframe.src) with
  | none => none
  | some videoId =>
    some
      { video_id := videoId
        url := "https://www.youtube.com/watch?v=" ++ videoId
        title := jsOrD iframe.title "Embedded YouTube Video"
        thumbnail := "https://img.youtube.com/vi/" ++ videoId ++ "/maxresdefault.jpg"
        channel := none
        duration := none
        views := none
        description := none
        is_current := false }

/-- A `ytd-thumbnail`-style renderer element, with the pieces
`extractVideoFromYouTubeThumbnail` reads (the inner `a#thumbnail` link may be
absent). -/
structure ThumbElem where
  linkHref : Option String
  titleText : Option String
  imgSrc : Option String
  channelText : Option String
  durationText : Option String

/-- `extractVideoFromYouTubeThumbnail`. -/
def extractVideoFromThumbnail (el : ThumbElem) : Option VideoData :=
  match el.linkHref with
  | none => none
  | some href =>
    match extractVideoId (some href) with
    | none => none
    | some videoId =>
      some
        { video_id := videoId
          url := "https://www.youtube.com/watch?v=" ++ videoId
          title := jsOrD el.titleText "YouTube Video"
          thumbnail := jsOrD el.imgSrc
            ("https://img.youtube.com/vi/" ++ videoId ++ "/maxresdefault.jpg")
          channel := el.channelText
          duration := el.durationText
          views := none
          description := none
          is_current := false }

/-- The successive captures of `matchAll(/"videoId":"([^"]+)"/g)`: scan left
to right, and continue after the end of each full match. -/
def scanVideoIds : List Char → List String
  | [] => []
  | c :: rest =>
    let lit := "\"videoId\":\"".toList
    if lit.isPrefixOf (c :: rest) then
      let t := (c :: rest).drop lit.length
      let cap := t.takeWhile (fun x => x ≠ '"')
      if cap.isEmpty then scanVideoIds rest
      else if (t.drop cap.length).head? = some '"' then
        String.mk cap :: scanVideoIds (t.drop (cap.length + 1))
      else scanVideoIds rest
    else scanVideoIds rest
termination_by l => l.length
decreasing_by
  all_goals simp only [List.length_drop, List.length_cons]
  all_goals omega

/-- `extractVideoFromScript`: every length-11 capture becomes an entry. -/
def extractVideoFromScript (scriptContent : String) : List VideoData :=
  (scanVideoIds scriptContent.toList).filterMap fun videoId =>
    if videoId ≠ "" ∧ videoId.length = 11 then
      some
        { video_id := videoId
          url := "https://www.youtube.com/watch?v=" ++ videoId
          title := "YouTube Video"
          thumbnail := "https://img.youtube.com/vi/" ++ videoId ++ "/maxresdefault.jpg"
          channel := none
          duration := none
          views := none
          description := none
          is_current := false }
    else none

/-- The watch-page state `extractCurrentVideo` reads: the `v` query parameter,
the page heading, `document.title`, channel / description / og:image / view
count, and `window.location.href`. -/
structure WatchPage where
  vParam : Option String
  pageTitle : Option String
  documentTitle : String
  channelText : Option String
  descriptionText : Option String
  ogImage : Option String
  viewsText : Option String
  href : String

/-- `extractCurrentVideo`. -/
def extractCurrentVideo (p : WatchPage) : Option VideoData :=
  match p.vParam with
  | none => none
  | some videoId =>
    if videoId = "" then none
    else
      some
        { video_id := videoId
          url := p.href
          title := jsOrD p.pageTitle p.documentTitle
          thumbnail := jsOrD p.ogImage
            ("https://img.youtube.com/vi/" ++ videoId ++ "/maxresdefault.jpg")
          channel := p.channelText
          duration := none
          views := p.viewsText
          description := p.descriptionText
          is_current := true }

/-- A page, as the five stages of `detectAllYouTubeVideos` see it. -/
structure Page where
  links : List LinkElem
  iframes : List IframeElem
  thumbnails : List ThumbElem
  scripts : List String
  watch : WatchPage

/-- The `if (videoData && !seenIds.has(videoData.video_id))` push step: the
accumulator is the collected list plus the set of seen ids. -/
def pushNew (acc : List VideoData × List String) (v : Option VideoData) :
    List VideoData × List String :=
  match v with
  | none => acc
  | some vd =>
    if vd.video_id ∈ acc.2 then acc else (acc.1 ++ [vd], vd.video_id :: acc.2)

/-- Stages 1–4 of `detectAllYouTubeVideos` (links, iframes, thumbnails,
script tags), before the current video is considered. -/
def collectStages (p : Page) : List VideoData × List String :=
  let acc : List VideoData × List String := ([], [])
  let acc := p.links.foldl (fun a l => pushNew a (extractVideoFromLink l)) acc
  let acc := p.iframes.foldl (fun a i => pushNew a (extractVideoFromIframe i)) acc
  let acc := p.thumbnails.foldl (fun a t => pushNew a (extractVideoFromThumbnail t)) acc
  p.scripts.foldl
    (fun a s =>
      if jsIncludes s "videoId" then
        (extractVideoFromScript s).foldl (fun a' d => pushNew a' (some d)) a
      else a)
    acc

/-- `detectAllYouTubeVideos`: the four collection stages, then the current
video is `unshift`ed to the front when new. -/
def detectAllYouTubeVideos (p : Page) : List VideoData :=
  let acc := collectStages p
  match extractCurrentVideo p.watch with
  | some currentVideo =>
    if currentVideo.video_id ∈ acc.2 then acc.1 else currentVideo :: acc.1
  | none => acc.1

/-- `formatVideosForStorage`, per element.  Every extractor in this file sets
`type: 'video'` and `platform: 'youtube'`, so those metadata fields are the
corresponding constants. -/
def formatVideoForStorage (video : VideoData) : MemoryPayload :=
  { user_id := "mvp_demo_user_2024"
    content := video.title ++ "\n\n" ++ jsOrD video.description "" ++ "\nChannel: "
        ++ jsOrD video.channel "Unknown" ++ "\nDuration: " ++ jsOrD video.duration "Unknown"
    url := some video.url
    title := some video.title
    metadata := .vObj
      [("video_id", .vStr video.video_id), ("thumbnail", .vStr video.thumbnail),
       ("channel", optJS video.channel), ("duration", optJS video.duration),
       ("views", optJS video.views), ("platform", .vStr "youtube"),
       ("type", .vStr "video"), ("is_current", .vBool video.is_current)] }

/-- `formatVideosForStorage`. -/
def formatVideosForStorage (videos : List VideoData) : List MemoryPayload :=
  videos.map formatVideoForStorage

end YouTube

/-! ## Product detector (`src/unnamed/part_005`, product-detector.js) -/

namespace Products

/-- A detected product, with the fields the product extractors populate
(JS numbers modelled as integers).  `title` can be `undefined`:
`extractAmazonProductDetail` assigns `?.textContent.trim()` and its
`Object.keys(product).length > 2` guard always passes (type/platform/title/
brand/url/description keys are always assigned), and `extractEbayItemDetail`
returns its object unconditionally.  `url` can be `undefined`: the
eBay/Etsy/Flipkart/Shopify listing-card extractors set it only when a link
element exists while their push guard checks only `title`. -/
structure ProductData where
  title : Option String
  price : Option Int
  platform : String
  description : Option String
  url : Option String
  image_url : Option String
  brand : Option String
  rating : Option Int
  reviews : Option Int
  asin : Option String
  condition : Option String
  seller : Option String

/-- `formatProductsForStorage`, per element.  An undefined `title` is
interpolated into the template literal as `"undefined"`; the `url`/`title`
payload fields are copied as they are (absent when undefined). -/
def formatProductForStorage (product : ProductData) : MemoryPayload :=
  { user_id := "mvp_demo_user_2024"
    content := jsTemplate product.title ++ "\nPrice: "
        ++ (match product.price with
            | some n => if n ≠ 0 then "$" ++ toString n else "N/A"
            | none => "N/A")
        ++ "\nPlatform: " ++ product.platform ++ "\n" ++ jsOrD product.description ""
    url := product.url
    title := product.title
    metadata := .vObj
      [("type", .vStr "product"), ("platform", .vStr product.platform),
       ("price", optJSNum product.price), ("image_url", optJS product.image_url),
       ("brand", optJS product.brand), ("rating", optJSNum product.rating),
       ("reviews", optJSNum product.reviews), ("asin", optJS product.asin),
       ("condition", optJS product.condition), ("seller", optJS product.seller)] }

/-- `formatProductsForStorage`. -/
def formatProductsForStorage (products : List ProductData) : List MemoryPayload :=
  products.map formatProductForStorage

end Products

/-! ## Smart save (`src/extension/utils/smart-save.js`) -/

namespace SmartSave

/-- The data an extractor hands to the single-item save path, with the fields
`buildContentString` / `buildMetadata` inspect. -/
structure Extracted where
  type : Option String
  title : Option String
  description : Option String
  content : Option String
  price : Option Int
  brand : Option String
  channel : Option String
  duration : Option String
  author : Option String
  read_time : Option Int
  url : Option String

/-- JS truthiness of a numeric field (`0` and absent are falsy). -/
def numTruthy : Option Int → Bool
  | some n => n ≠ 0
  | none => false

/-- One `if (cond) content += suffix` step. -/
def appendIf (b : Bool) (c suffix : String) : String :=
  if b then c ++ suffix else c

/-- `buildContentString`.  The source's nested type-specific guards
(`if (data.type === 'product') { if (data.price) ... }`) are flattened into
conjunctions, which appends the same pieces in the same order. -/
def buildContentString (data : Extracted) : String :=
  let c := data.title.getD ""
  let c := appendIf (truthy data.description) c ("\n\n" ++ data.description.getD "")
  let c := appendIf (truthy data.content) c ("\n\n" ++ data.content.getD "")
  let c := appendIf (decide (data.type = some "product") && numTruthy data.price) c
      ("\nPrice: $" ++ toString (data.price.getD 0))
  let c := appendIf (decide (data.type = some "product") && truthy data.brand) c
      ("\nBrand: " ++ data.brand.getD "")
  let c := appendIf (decide (data.type = some "video") && truthy data.channel) c
      ("\nChannel: " ++ data.channel.getD "")
  let c := appendIf (decide (data.type = some "video") && truthy data.duration) c
      ("\nDuration: " ++ data.duration.getD "")
  let c := appendIf (decide (data.type = some "article") && truthy data.author) c
      ("\nAuthor: " ++ data.author.getD "")
  let c := appendIf (decide (data.type = some "article") && numTruthy data.read_time) c
      ("\nRead time: " ++ toString (data.read_time.getD 0) ++ " min")
  if c ≠ "" then c else "No content extracted"

/-- `buildMetadata`: the `type` plus every field other than
`content`/`title`/`url`/`description`. -/
def buildMetadata (data : Extracted) : JSVal :=
  .vObj
    [("type", optJS data.type),
     ("price", optJSNum data.price),
     ("brand", optJS data.brand),
     ("channel", optJS data.channel),
     ("duration", optJS data.duration),
     ("author", optJS data.author),
     ("read_time", optJSNum data.read_time)]

/-- Outcome of one `fetch` to `backendUrl/api/memory`: success, or a failure
carrying the error detail (HTTP error body or thrown message). -/
inductive ApiOutcome where
  | ok
  | err (detail : String)

/-- The result object the save paths return. -/
structure SaveResult where
  success : Bool
  id : Option String
  message : Option String
  error : Option String

/-- The payload `saveSingleContent` builds:
`{ user_id, content, url: extracted.url || location.href,
title: extracted.title || document.title, metadata }`. -/
def saveSinglePayload (data : Extracted) (locationHref documentTitle userId : String) :
    MemoryPayload :=
  { user_id := userId
    content := buildContentString data
    url := some (jsOrD data.url locationHref)
    title := some (jsOrD data.title documentTitle)
    metadata := buildMetadata data }

/-- `saveSingleContent`; the second component is the body POSTed to the
backend (`none` when extraction failed and no request was made). -/
def saveSingleContent (extracted : Option Extracted)
    (locationHref documentTitle userId : String) (outcome : ApiOutcome)
    (respId : String) : SaveResult × Option MemoryPayload :=
  match extracted with
  | none =>
    ({ success := false, id := none, message := none,
       error := some "Could not extract content from page" }, none)
  | some data =>
    let payload := saveSinglePayload data locationHref documentTitle userId
    match outcome with
    | .ok =>
      ({ success := true, id := some respId,
         message := some (jsOrD data.type "Content" ++ " saved successfully!"),
         error := none }, some payload)
    | .err detail =>
      ({ success := false, id := none, message := none, error := some detail },
       some payload)

/-- The summary object the bulk path returns on the non-error path. -/
structure BulkSummary where
  success : Bool
  saved_count : Nat
  failed_count : Nat
  total : Nat
  message : String
  errors : Option (List String)

/-- Result of `saveBulkContent`: the early `{ success: false, error }` object,
or the summary. -/
inductive BulkOutcome where
  | errorResult (error : String)
  | summary (s : BulkSummary)

/-- What the bulk extractor returned: the detected `items` (only their number
matters downstream) and the `formatted` payloads. -/
structure BulkExtracted where
  items : List Unit
  formatted : List MemoryPayload

/-- The `for (const item of extracted.formatted)` loop: each item's `user_id`
is overwritten with the caller's id before the POST; returns the number of
successful saves, the error details in order, and the POSTed bodies. -/
def bulkLoop (userId : String) (outcomes : Nat → ApiOutcome) :
    List MemoryPayload → Nat → Nat × List String × List MemoryPayload
  | [], _ => (0, [], [])
  | item :: rest, i =>
    let sent := { item with user_id := userId }
    let r := bulkLoop userId outcomes rest (i + 1)
    match outcomes i with
    | .ok => (r.1 + 1, r.2.1, sent :: r.2.2)
    | .err detail => (r.1, detail :: r.2.1, sent :: r.2.2)

/-- `saveBulkContent`; the second component is the list of POSTed bodies. -/
def saveBulkContent (detectionType : String) (extracted : Option BulkExtracted)
    (userId : String) (outcomes : Nat → ApiOutcome) :
    BulkOutcome × List MemoryPayload :=
  match extracted with
  | none => (.errorResult ("No " ++ detectionType ++ "s found on this page"), [])
  | some ex =>
    if ex.items.isEmpty then
      (.errorResult ("No " ++ detectionType ++ "s found on this page"), [])
    else
      let r := bulkLoop userId outcomes ex.formatted 0
      (.summary
        { success := decide (0 < r.1)
          saved_count := r.1
          failed_count := r.2.1.length
          total := ex.items.length
          message := "Successfully saved " ++ toString r.1 ++ " of "
              ++ toString ex.items.length ++ " " ++ detectionType ++ "s"
          errors := if 0 < r.2.1.length then some r.2.1 else none },
       r.2.2)

/-- `savePageAsNote`: `document.body.innerText?.slice(0, 5000) || 'No content'`
as the content, fixed `note` metadata. -/
def savePageAsNote (bodyInnerText : Option String)
    (locationHref documentTitle userId savedAt : String) (outcome : ApiOutcome) :
    SaveResult × Option MemoryPayload :=
  let content := jsOrD (bodyInnerText.map (fun s => String.mk (s.toList.take 5000))) "No content"
  let payload : MemoryPayload :=
    { user_id := userId
      content := content
      url := some locationHref
      title := some documentTitle
      metadata := .vObj [("type", .vStr "note"), ("saved_at", .vStr savedAt)] }
  match outcome with
  | .ok =>
    ({ success := true, id := none, message := some "Page saved as note!", error := none },
     some payload)
  | .err detail =>
    ({ success := false, id := none, message := none, error := some detail }, some payload)

end SmartSave

/-! ## Theorems for the user-id claims -/

/-- C1 counterexample: with `"alice-browser-uuid"` stored under
`ai_mem_user_id`, the extension-side `getOrCreateUserId` still returns the
hardcoded constant, not the stored id. -/
theorem extension_userId_counterexample :
    (setItem emptyStore "ai_mem_user_id" "alice-browser-uuid") "ai_mem_user_id"
        = some "alice-browser-uuid" ∧
    Extension.getOrCreateUserId (setItem emptyStore "ai_mem_user_id" "alice-browser-uuid")
        emptyStore = "mvp_demo_user_2024" ∧
    ("mvp_demo_user_2024" : String) ≠ "alice-browser-uuid" :=
  ⟨by simp [setItem], rfl, by decide⟩

/-- C1 (amended): the extension-side `getOrCreateUserId` ignores both storage
areas and always returns the hardcoded constant `USER_ID =
"mvp_demo_user_2024"`, the same value in every browser. -/
theorem extension_userId_is_constant (localStorage chromeStorage : Store) :
    Extension.getOrCreateUserId localStorage chromeStorage = Extension.USER_ID :=
  rfl

/-- C2 counterexample: when the empty string is stored (present) under
`ai_mem_user_id`, the dashboard's `getOrCreateUserId` does not return that
stored value; it falls through and returns the freshly generated UUID. -/
theorem dashboard_getOrCreateUserId_counterexample :
    (setItem emptyStore "ai_mem_user_id" "") "ai_mem_user_id" = some "" ∧
    (Dashboard.getOrCreateUserId (setItem emptyStore "ai_mem_user_id" "") "fresh-uuid-1").1
        = "fresh-uuid-1" ∧
    ("fresh-uuid-1" : String) ≠ "" :=
  ⟨by simp [setItem], by rfl, by decide⟩

/-- C2 (amended): `getOrCreateUserId` returns the value under `ai_mem_user_id`
when present and non-empty, otherwise the first present non-empty value among
`recallhub_user_id` then `synapse_user_id`, otherwise the fresh UUID; in every
case the returned value `v` ends up stored under `ai_mem_user_id`, so an
immediately repeated call returns the same id. -/
theorem dashboard_getOrCreateUserId_spec (st : Store) (fresh fresh2 : String)
    (hfresh : fresh ≠ "") :
    (∀ u, st Dashboard.USER_ID_KEY = some u → u ≠ "" →
        (Dashboard.getOrCreateUserId st fresh).1 = u) ∧
    (¬ truthy (st Dashboard.USER_ID_KEY) →
      ∀ u, st "recallhub_user_id" = some u → u ≠ "" →
        (Dashboard.getOrCreateUserId st fresh).1 = u) ∧
    (¬ truthy (st Dashboard.USER_ID_KEY) → ¬ truthy (st "recallhub_user_id") →
      ∀ u, st "synapse_user_id" = some u → u ≠ "" →
        (Dashboard.getOrCreateUserId st fresh).1 = u) ∧
    (¬ truthy (st Dashboard.USER_ID_KEY) → ¬ truthy (st "recallhub_user_id") →
      ¬ truthy (st "synapse_user_id") →
        (Dashboard.getOrCreateUserId st fresh).1 = fresh) ∧
    (Dashboard.getOrCreateUserId st fresh).2 Dashboard.USER_ID_KEY
        = some (Dashboard.getOrCreateUserId st fresh).1 ∧
    (Dashboard.getOrCreateUserId (Dashboard.getOrCreateUserId st fresh).2 fresh2).1
        = (Dashboard.getOrCreateUserId st fresh).1 := by
  have hkey : Dashboard.USER_ID_KEY = "ai_mem_user_id" := rfl
  rcases ha : st "ai_mem_user_id" with _ | ua
  · rcases hb : st "recallhub_user_id" with _ | ub
    · rcases hc : st "synapse_user_id" with _ | uc
      · simp [Dashboard.getOrCreateUserId, Dashboard.lookupFallbacks,
          Dashboard.FALLBACK_KEYS, truthy, ha, hb, hc, setItem_same, hfresh, hkey]
      · by_cases huc : uc = ""
        · subst huc
          simp [Dashboard.getOrCreateUserId, Dashboard.lookupFallbacks,
            Dashboard.FALLBACK_KEYS, truthy, ha, hb, hc, setItem_same, hfresh, hkey]
        · simp [Dashboard.getOrCreateUserId, Dashboard.lookupFallbacks,
            Dashboard.FALLBACK_KEYS, truthy, ha, hb, hc, setItem_same, huc, hkey]
    · by_cases hub : ub = ""
      · subst hub
        rcases hc : st "synapse_user_id" with _ | uc
        · simp [Dashboard.getOrCreateUserId, Dashboard.lookupFallbacks,
            Dashboard.FALLBACK_KEYS, truthy, ha, hb, hc, setItem_same, hfresh, hkey]
        · by_cases huc : uc = ""
          · subst huc
            simp [Dashboard.getOrCreateUserId, Dashboard.lookupFallbacks,
              Dashboard.FALLBACK_KEYS, truthy, ha, hb, hc, setItem_same, hfresh, hkey]
          · simp [Dashboard.getOrCreateUserId, Dashboard.lookupFallbacks,
              Dashboard.FALLBACK_KEYS, truthy, ha, hb, hc, setItem_same, huc, hkey]
      · simp [Dashboard.getOrCreateUserId, Dashboard.lookupFallbacks,
          Dashboard.FALLBACK_KEYS, truthy, ha, hb, hub, setItem_same, hkey]
  · by_cases hua : ua = ""
    · subst hua
      rcases hb : st "recallhub_user_id" with _ | ub
      · rcases hc : st "synapse_user_id" with _ | uc
        · simp [Dashboard.getOrCreateUserId, Dashboard.lookupFallbacks,
            Dashboard.FALLBACK_KEYS, truthy, ha, hb, hc, setItem_same, hfresh, hkey]
        · by_cases huc : uc = ""
          · subst huc
            simp [Dashboard.getOrCreateUserId, Dashboard.lookupFallbacks,
              Dashboard.FALLBACK_KEYS, truthy, ha, hb, hc, setItem_same, hfresh, hkey]
          · simp [Dashboard.getOrCreateUserId, Dashboard.lookupFallbacks,
              Dashboard.FALLBACK_KEYS, truthy, ha, hb, hc, setItem_same, huc, hkey]
      · by_cases hub : ub = ""
        · subst hub
          rcases hc : st "synapse_user_id" with _ | uc
          · simp [Dashboard.getOrCreateUserId, Dashboard.lookupFallbacks,
              Dashboard.FALLBACK_KEYS, truthy, ha, hb, hc, setItem_same, hfresh, hkey]
          · by_cases huc : uc = ""
            · subst huc
              simp [Dashboard.getOrCreateUserId, Dashboard.lookupFallbacks,
                Dashboard.FALLBACK_KEYS, truthy, ha, hb, hc, setItem_same, hfresh, hkey]
            · simp [Dashboard.getOrCreateUserId, Dashboard.lookupFallbacks,
                Dashboard.FALLBACK_KEYS, truthy, ha, hb, hc, setItem_same, huc, hkey]
        · simp [Dashboard.getOrCreateUserId, Dashboard.lookupFallbacks,
            Dashboard.FALLBACK_KEYS, truthy, ha, hb, hub, setItem_same, hkey]
    · simp [Dashboard.getOrCreateUserId, Dashboard.lookupFallbacks,
        Dashboard.FALLBACK_KEYS, truthy, ha, hua, setItem_same, hkey]

/-- C2 witness: on the empty storage with fresh UUID `"u1"`, the call returns
`"u1"`, stores it, and a repeated call returns `"u1"` again. -/
theorem dashboard_getOrCreateUserId_spec_witness :
    (Dashboard.getOrCreateUserId emptyStore "u1").1 = "u1" ∧
    (Dashboard.getOrCreateUserId emptyStore "u1").2 Dashboard.USER_ID_KEY = some "u1" ∧
    (Dashboard.getOrCreateUserId (Dashboard.getOrCreateUserId emptyStore "u1").2 "u2").1
        = "u1" := by
  have h := dashboard_getOrCreateUserId_spec emptyStore "u1" "u2" (by decide)
  have hv : (Dashboard.getOrCreateUserId emptyStore "u1").1 = "u1" :=
    h.2.2.2.1 (by decide) (by decide) (by decide)
  refine ⟨hv, ?_, ?_⟩
  · have := h.2.2.2.2.1
    rwa [hv] at this
  · have := h.2.2.2.2.2
    rwa [hv] at this

/-! ### Object-field helper lemmas -/

theorem lookup_setField (fields : List (String × JSVal)) (k : String) (v : JSVal) :
    lookupField (setField fields k v) k = v := by
  induction fields with
  | nil => simp [setField, lookupField]
  | cons hd tl ih =>
    obtain ⟨k', w⟩ := hd
    by_cases hk : k' = k
    · subst hk; simp [setField, lookupField]
    · have hk' : ¬ (k = k') := fun h => hk h.symm
      simp [setField, lookupField, hk, hk', ih]

theorem setField_eq_self (fields : List (String × JSVal)) (k : String) (v : JSVal)
    (h : lookupField fields k = v) (hv : v.isUndefined = false) :
    setField fields k v = fields := by
  induction fields with
  | nil =>
    simp [lookupField] at h
    rw [← h] at hv
    simp [JSVal.isUndefined] at hv
  | cons hd tl ih =>
    obtain ⟨k', w⟩ := hd
    by_cases hk : k = k'
    · subst hk
      simp [lookupField] at h
      simp [setField, h]
    · have hk' : ¬ (k' = k) := fun hh => hk hh.symm
      simp [lookupField, hk] at h
      simp [setField, hk', ih h]

theorem objSet_objGet {payload : JSVal} {k : String} (v : JSVal)
    (h : (payload.objGet k).truthy = true) :
    (payload.objSet k v).objGet k = v := by
  cases payload <;> simp [JSVal.objGet, JSVal.truthy, JSVal.objSet] at h ⊢
  exact lookup_setField ..

theorem objSet_eq_self {payload : JSVal} {k : String} {v : JSVal}
    (h : payload.objGet k = v) (hv : v.isUndefined = false) :
    payload.objSet k v = payload := by
  cases payload <;> simp [JSVal.objGet, JSVal.objSet] at h ⊢
  exact setField_eq_self _ _ _ h hv

/-! ### String helper lemmas -/

theorem append_ne_empty_right (a b : String) (hb : b ≠ "") : a ++ b ≠ "" := by
  intro h
  apply hb
  have hd := congrArg String.data h
  rw [String.data_append] at hd
  exact String.ext (List.append_eq_nil.mp hd).2

theorem append_ne_empty_left (a b : String) (ha : a ≠ "") : a ++ b ≠ "" := by
  intro h
  apply ha
  have hd := congrArg String.data h
  rw [String.data_append] at hd
  exact String.ext (List.append_eq_nil.mp hd).1

/-- C3: `syncWithExtension` returns true and overwrites `ai_mem_user_id` with
the extension's id exactly when the handshake reports an id and the local id
is missing or different; otherwise it returns false and leaves every
localStorage entry unchanged. -/
theorem syncWithExtension_spec (st : Store) (ext : Option String) :
    ((Dashboard.syncWithExtension st ext).1 = true ↔
      truthy ext ∧ (¬ truthy (Dashboard.getUserId st) ∨ ext ≠ Dashboard.getUserId st)) ∧
    (∀ e, ext = some e → (Dashboard.syncWithExtension st ext).1 = true →
      (Dashboard.syncWithExtension st ext).2 Dashboard.USER_ID_KEY = some e ∧
      ∀ k, k ≠ Dashboard.USER_ID_KEY → (Dashboard.syncWithExtension st ext).2 k = st k) ∧
    ((Dashboard.syncWithExtension st ext).1 = false →
      ∀ k, (Dashboard.syncWithExtension st ext).2 k = st k) := by
  by_cases hext : truthy ext
  · by_cases hloc : truthy (Dashboard.getUserId st)
    · by_cases hne : ext = Dashboard.getUserId st
      · have heq : Dashboard.syncWithExtension st ext = (false, st) := by
          simp [Dashboard.syncWithExtension, hext, hloc, hne]
        refine ⟨?_, ?_, ?_⟩
        · rw [heq]; simp [hext, hloc, hne]
        · intro e _ htrue; rw [heq] at htrue; simp at htrue
        · intro _ k; rw [heq]
      · have heq : Dashboard.syncWithExtension st ext
            = (true, Dashboard.setUserId st (ext.getD "")) := by
          simp [Dashboard.syncWithExtension, hext, hloc, hne]
        refine ⟨?_, ?_, ?_⟩
        · rw [heq]; simp [hext, hne]
        · intro e he _; subst he
          rw [heq]
          refine ⟨?_, fun k hk => ?_⟩
          · simp [Dashboard.setUserId, setItem]
          · simp [Dashboard.setUserId, setItem, hk]
        · intro hfalse; rw [heq] at hfalse; simp at hfalse
    · have heq : Dashboard.syncWithExtension st ext
          = (true, Dashboard.setUserId st (ext.getD "")) := by
        simp [Dashboard.syncWithExtension, hext, hloc]
      refine ⟨?_, ?_, ?_⟩
      · rw [heq]; simp [hext, hloc]
      · intro e he _; subst he
        rw [heq]
        refine ⟨?_, fun k hk => ?_⟩
        · simp [Dashboard.setUserId, setItem]
        · simp [Dashboard.setUserId, setItem, hk]
      · intro hfalse; rw [heq] at hfalse; simp at hfalse
  · have heq : Dashboard.syncWithExtension st ext = (false, st) := by
      simp [Dashboard.syncWithExtension, hext]
    refine ⟨?_, ?_, ?_⟩
    · rw [heq]; simp [hext]
    · intro e _ htrue; rw [heq] at htrue; simp at htrue
    · intro _ k; rw [heq]

/-- C3 witness: with local id `"old"` stored and the extension reporting
`"new"`, the sync returns true and overwrites `ai_mem_user_id` with `"new"`. -/
theorem syncWithExtension_spec_witness :
    (Dashboard.syncWithExtension (setItem emptyStore "ai_mem_user_id" "old") (some "new")).1
        = true ∧
    (Dashboard.syncWithExtension (setItem emptyStore "ai_mem_user_id" "old") (some "new")).2
        Dashboard.USER_ID_KEY = some "new" := by
  have h := syncWithExtension_spec (setItem emptyStore "ai_mem_user_id" "old") (some "new")
  have ht : (Dashboard.syncWithExtension (setItem emptyStore "ai_mem_user_id" "old")
      (some "new")).1 = true :=
    h.1.mpr ⟨by decide, Or.inr (by decide)⟩
  exact ⟨ht, (h.2.1 "new" rfl ht).1⟩

/-- C4: the background worker's `page_api_data` branch validates and
normalizes before proxying: missing/falsy text, API-response-shaped object
text, and empty/whitespace-only normalized text are rejected with
`{ ok: false }` and no backend request; otherwise the payload is POSTed to
the `/store` endpoint with `text` replaced by its normalized string form
(objects JSON-stringified, other non-strings coerced via `String`), and the
response is `{ ok: true }` iff the HTTP response was ok. -/
theorem background_pageApiData_spec (payload : JSVal) (outcome : Background.FetchOutcome) :
    (¬ (payload.truthy = true ∧ (payload.objGet "text").truthy = true) →
      Background.handlePageApiData payload outcome
        = ⟨false, "Missing text field in payload", none⟩) ∧
    (payload.truthy = true → (payload.objGet "text").truthy = true →
      (payload.objGet "text").isObjectType = true →
      Background.looksLikeApiResponse (payload.objGet "text") = true →
      Background.handlePageApiData payload outcome
        = ⟨false, "Cannot store API response data", none⟩) ∧
    (payload.truthy = true → (payload.objGet "text").truthy = true →
      ¬ ((payload.objGet "text").isObjectType = true
          ∧ Background.looksLikeApiResponse (payload.objGet "text") = true) →
      jsTrim (Background.normalizedText payload) = "" →
      Background.handlePageApiData payload outcome
        = ⟨false, "No content to store", none⟩) ∧
    (payload.truthy = true → (payload.objGet "text").truthy = true →
      ¬ ((payload.objGet "text").isObjectType = true
          ∧ Background.looksLikeApiResponse (payload.objGet "text") = true) →
      jsTrim (Background.normalizedText payload) ≠ "" →
      (Background.handlePageApiData payload outcome).request
          = some (payload.objSet "text" (.vStr (Background.normalizedText payload))) ∧
      ((Background.handlePageApiData payload outcome).ok = true ↔ outcome = .ok)) := by
  refine ⟨?_, ?_, ?_, ?_⟩
  · intro h
    simp [Background.handlePageApiData, h]
  · intro hp ht hobj hapi
    simp [Background.handlePageApiData, hp, ht, hobj, hapi]
  · intro hp ht hno htrim
    by_cases hobj : (payload.objGet "text").isObjectType = true
    · have hapi : Background.looksLikeApiResponse (payload.objGet "text") = false := by
        cases hB : Background.looksLikeApiResponse (payload.objGet "text")
        · rfl
        · exact absurd ⟨hobj, hB⟩ hno
      have hset := objSet_objGet (JSVal.vStr (jsonStringifyD (payload.objGet "text"))) ht
      have hnorm : Background.normalizedText payload
          = jsonStringifyD (payload.objGet "text") := by
        simp [Background.normalizedText, hobj]
      rw [hnorm] at htrim
      simp [Background.handlePageApiData, hp, ht, hobj, hapi,
        Background.finishStore, hset, JSVal.toJSString, htrim]
    · have hnorm : Background.normalizedText payload
          = (payload.objGet "text").toJSString := by
        simp [Background.normalizedText, hobj]
      rw [hnorm] at htrim
      by_cases hstr : (payload.objGet "text").isString = true
      · obtain ⟨s, hs⟩ : ∃ s, payload.objGet "text" = JSVal.vStr s := by
          cases hT : payload.objGet "text" <;>
            first
            | exact ⟨_, rfl⟩
            | simp [hT, JSVal.isString] at hstr
        rw [hs] at htrim
        simp only [JSVal.toJSString] at htrim
        have ht' : (JSVal.vStr s).truthy = true := by rw [← hs]; exact ht
        have hos : (JSVal.vStr s).isObjectType = false := rfl
        have hss : (JSVal.vStr s).isString = true := rfl
        simp [Background.handlePageApiData, hp, ht, hs, ht', hos, hss,
          Background.finishStore, JSVal.toJSString, htrim]
      · have htc : (JSVal.vStr ((payload.objGet "text").toJSString)).toJSString
            = (payload.objGet "text").toJSString := rfl
        have hset := objSet_objGet (JSVal.vStr ((payload.objGet "text").toJSString)) ht
        simp [Background.handlePageApiData, hp, ht, hobj, hstr,
          Background.finishStore, hset, htc, htrim]
  · intro hp ht hno htrim
    have hne : Background.normalizedText payload ≠ "" := by
      intro h0
      rw [h0] at htrim
      exact htrim rfl
    by_cases hobj : (payload.objGet "text").isObjectType = true
    · have hapi : Background.looksLikeApiResponse (payload.objGet "text") = false := by
        cases hB : Background.looksLikeApiResponse (payload.objGet "text")
        · rfl
        · exact absurd ⟨hobj, hB⟩ hno
      have hset := objSet_objGet (JSVal.vStr (jsonStringifyD (payload.objGet "text"))) ht
      have hnorm : Background.normalizedText payload
          = jsonStringifyD (payload.objGet "text") := by
        simp [Background.normalizedText, hobj]
      rw [hnorm] at htrim hne
      have htt : (JSVal.vStr (jsonStringifyD (payload.objGet "text"))).truthy = true := by
        simp [JSVal.truthy, hne]
      have htc : (JSVal.vStr (jsonStringifyD (payload.objGet "text"))).toJSString
          = jsonStringifyD (payload.objGet "text") := rfl
      cases outcome <;>
        simp [Background.handlePageApiData, hp, ht, hobj, hapi,
          Background.finishStore, hset, htc, htt, htrim, hne, hnorm]
    · have hnorm : Background.normalizedText payload
          = (payload.objGet "text").toJSString := by
        simp [Background.normalizedText, hobj]
      rw [hnorm] at htrim hne
      by_cases hstr : (payload.objGet "text").isString = true
      · obtain ⟨s, hs⟩ : ∃ s, payload.objGet "text" = JSVal.vStr s := by
          cases hT : payload.objGet "text" <;>
            first
            | exact ⟨_, rfl⟩
            | simp [hT, JSVal.isString] at hstr
        rw [hs] at htrim hne
        simp only [JSVal.toJSString] at htrim hne
        have hts : (JSVal.vStr s).truthy = true := by simp [JSVal.truthy, hne]
        have hos : (JSVal.vStr s).isObjectType = false := rfl
        have hss : (JSVal.vStr s).isString = true := rfl
        have hself : payload.objSet "text" (JSVal.vStr s) = payload :=
          objSet_eq_self hs rfl
        cases outcome <;>
          simp [Background.handlePageApiData, hp, ht, hs, hts, hos, hss,
            Background.finishStore, JSVal.toJSString, htrim, hne, hnorm, hself]
      · have htt : (JSVal.vStr ((payload.objGet "text").toJSString)).truthy = true := by
          simp [JSVal.truthy, hne]
        have htc : (JSVal.vStr ((payload.objGet "text").toJSString)).toJSString
            = (payload.objGet "text").toJSString := rfl
        have hset := objSet_objGet (JSVal.vStr ((payload.objGet "text").toJSString)) ht
        cases outcome <;>
          simp [Background.handlePageApiData, hp, ht, hobj, hstr,
            Background.finishStore, hset, htc, htt, htrim, hne, hnorm]

/-- C4 witness: a payload with string text `"hello"` is proxied unchanged and
the `ok` response tracks the fetch outcome. -/
theorem background_pageApiData_spec_witness :
    (Background.handlePageApiData (.vObj [("text", .vStr "hello")]) .ok).request
        = some (.vObj [("text", .vStr "hello")]) ∧
    (Background.handlePageApiData (.vObj [("text", .vStr "hello")]) .ok).ok = true := by
  have h := (background_pageApiData_spec (.vObj [("text", .vStr "hello")]) .ok).2.2.2
    (by decide) (by decide) (by decide) (by decide)
  exact ⟨h.1, h.2.mpr rfl⟩

/-- C5: `detectContentType` precedence: product hosts first, then video
hosts, then article indicators, else note; and the returned extractor is the
one matching the returned type. -/
theorem detectContentType_spec (domain : String) (d : Detector.DomFlags) :
    ((Detector.detectContentType domain d).type = .product ↔
      (jsIncludes domain "amazon." || jsIncludes domain "ebay." ||
       jsIncludes domain "shopify." || jsIncludes domain "etsy.") = true) ∧
    ((Detector.detectContentType domain d).type = .video ↔
      (jsIncludes domain "amazon." || jsIncludes domain "ebay." ||
       jsIncludes domain "shopify." || jsIncludes domain "etsy.") = false ∧
      (jsIncludes domain "youtube.com" || jsIncludes domain "vimeo.com") = true) ∧
    ((Detector.detectContentType domain d).type = .article ↔
      (jsIncludes domain "amazon." || jsIncludes domain "ebay." ||
       jsIncludes domain "shopify." || jsIncludes domain "etsy.") = false ∧
      (jsIncludes domain "youtube.com" || jsIncludes domain "vimeo.com") = false ∧
      Detector.isArticlePage d = true) ∧
    ((Detector.detectContentType domain d).type = .note ↔
      (jsIncludes domain "amazon." || jsIncludes domain "ebay." ||
       jsIncludes domain "shopify." || jsIncludes domain "etsy.") = false ∧
      (jsIncludes domain "youtube.com" || jsIncludes domain "vimeo.com") = false ∧
      Detector.isArticlePage d = false) ∧
    (Detector.detectContentType domain d).extractor
        = Detector.matchingExtractor (Detector.detectContentType domain d).type := by
  cases h1 : (jsIncludes domain "amazon." || jsIncludes domain "ebay." ||
      jsIncludes domain "shopify." || jsIncludes domain "etsy.") <;>
    cases h2 : (jsIncludes domain "youtube.com" || jsIncludes domain "vimeo.com") <;>
      cases h3 : Detector.isArticlePage d <;>
        simp [Detector.detectContentType, Detector.matchingExtractor, h1, h2, h3]

/-- Helper: `buildContentString` never returns the empty string (it falls back
to `'No content extracted'`). -/
theorem buildContentString_ne_empty (data : SmartSave.Extracted) :
    SmartSave.buildContentString data ≠ "" := by
  simp only [SmartSave.buildContentString]
  split
  · assumption
  · decide

/-- C6 counterexample: product payloads need not carry a url or a title.  An
Etsy-style listing card with a title but no link element yields a product with
`url` undefined, and an eBay/Amazon detail page without a recognized title
element yields a product with `title` undefined; `formatProductsForStorage`
copies both fields as they are, so the formatted payload lacks them. -/
theorem capturePayloads_counterexample :
    Products.formatProductForStorage
        { title := some "Handmade Mug", price := some 25, platform := "etsy",
          description := none, url := none, image_url := none, brand := none,
          rating := none, reviews := none, asin := none, condition := none,
          seller := none }
      ∈ Products.formatProductsForStorage
        [{ title := some "Handmade Mug", price := some 25, platform := "etsy",
           description := none, url := none, image_url := none, brand := none,
           rating := none, reviews := none, asin := none, condition := none,
           seller := none }] ∧
    (Products.formatProductForStorage
        { title := some "Handmade Mug", price := some 25, platform := "etsy",
          description := none, url := none, image_url := none, brand := none,
          rating := none, reviews := none, asin := none, condition := none,
          seller := none }).url = none ∧
    (Products.formatProductForStorage
        { title := none, price := some 20, platform := "ebay",
          description := none, url := some "https://www.ebay.com/itm/1",
          image_url := none, brand := none, rating := none, reviews := none,
          asin := none, condition := some "Used", seller := none }).title = none :=
  ⟨List.mem_singleton.mpr rfl, rfl, rfl⟩

/-- C6 (amended): every payload built by `formatVideosForStorage` and
`saveSingleContent` carries all four of non-empty content, url, title and a
metadata object; every `formatProductsForStorage` payload carries non-empty
content and a metadata object, and copies the extracted product's `url` and
`title` fields unchanged — those two may be absent (undefined) when the
extractor found no link or no title element. -/
theorem capturePayloads_wellFormed :
    (∀ (vs : List YouTube.VideoData) (p : MemoryPayload),
        p ∈ YouTube.formatVideosForStorage vs →
        p.content ≠ "" ∧ p.url.isSome = true ∧ p.title.isSome = true ∧
        p.metadata.isObj = true) ∧
    (∀ (ps : List Products.ProductData) (p : MemoryPayload),
        p ∈ Products.formatProductsForStorage ps →
        p.content ≠ "" ∧ p.metadata.isObj = true) ∧
    (∀ (q : Products.ProductData),
        (Products.formatProductForStorage q).url = q.url ∧
        (Products.formatProductForStorage q).title = q.title) ∧
    (∀ (data : SmartSave.Extracted) (locationHref documentTitle userId : String),
        (SmartSave.saveSinglePayload data locationHref documentTitle userId).content ≠ "" ∧
        (SmartSave.saveSinglePayload data locationHref documentTitle userId).url.isSome
            = true ∧
        (SmartSave.saveSinglePayload data locationHref documentTitle userId).title.isSome
            = true ∧
        (SmartSave.saveSinglePayload data locationHref documentTitle userId).metadata.isObj
            = true) := by
  refine ⟨?_, ?_, ?_, ?_⟩
  · intro vs p hp
    rw [YouTube.formatVideosForStorage] at hp
    obtain ⟨v, _, rfl⟩ := List.mem_map.mp hp
    refine ⟨?_, rfl, rfl, rfl⟩
    show v.title ++ "\n\n" ++ jsOrD v.description "" ++ "\nChannel: "
        ++ jsOrD v.channel "Unknown" ++ "\nDuration: " ++ jsOrD v.duration "Unknown" ≠ ""
    exact append_ne_empty_left _ _ (append_ne_empty_right _ _ (by decide))
  · intro ps p hp
    rw [Products.formatProductsForStorage] at hp
    obtain ⟨q, _, rfl⟩ := List.mem_map.mp hp
    refine ⟨?_, rfl⟩
    show jsTemplate q.title ++ "\nPrice: "
        ++ (match q.price with
            | some n => if n ≠ 0 then "$" ++ toString n else "N/A"
            | none => "N/A")
        ++ "\nPlatform: " ++ q.platform ++ "\n" ++ jsOrD q.description "" ≠ ""
    exact append_ne_empty_left _ _ (append_ne_empty_right _ _ (by decide))
  · intro q
    exact ⟨rfl, rfl⟩
  · intro data locationHref documentTitle userId
    exact ⟨buildContentString_ne_empty data, rfl, rfl, rfl⟩

/-- C6 witness: a concrete video entry formats to a payload with non-empty
content, url, title and an object metadata. -/
theorem capturePayloads_wellFormed_witness :
    (YouTube.formatVideoForStorage
        { video_id := "v", url := "u", title := "T", thumbnail := "th",
          channel := none, duration := none, views := none, description := none,
          is_current := false }).content ≠ "" ∧
    (YouTube.formatVideoForStorage
        { video_id := "v", url := "u", title := "T", thumbnail := "th",
          channel := none, duration := none, views := none, description := none,
          is_current := false }).url.isSome = true ∧
    (YouTube.formatVideoForStorage
        { video_id := "v", url := "u", title := "T", thumbnail := "th",
          channel := none, duration := none, views := none, description := none,
          is_current := false }).title.isSome = true ∧
    (YouTube.formatVideoForStorage
        { video_id := "v", url := "u", title := "T", thumbnail := "th",
          channel := none, duration := none, views := none, description := none,
          is_current := false }).metadata.isObj = true := by
  exact capturePayloads_wellFormed.1
    [{ video_id := "v", url := "u", title := "T", thumbnail := "th",
       channel := none, duration := none, views := none, description := none,
       is_current := false }]
    (YouTube.formatVideoForStorage
      { video_id := "v", url := "u", title := "T", thumbnail := "th",
        channel := none, duration := none, views := none, description := none,
        is_current := false })
    (by simp [YouTube.formatVideosForStorage])

/-- C7: `extractVideoId` returns null on null/empty input, tries the three
URL patterns in fixed priority order (`v=` query parameter, then `youtu.be/`,
then `/embed/`), returns the first capture, null when nothing matches; a URL
with both a `v=` parameter and an `/embed/` segment yields the `v=` value. -/
theorem extractVideoId_spec :
    YouTube.extractVideoId none = none ∧
    YouTube.extractVideoId (some "") = none ∧
    (∀ s cap, YouTube.scanWatchParam s.toList = some cap →
      YouTube.extractVideoId (some s) = some (String.mk cap)) ∧
    (∀ s cap, YouTube.scanWatchParam s.toList = none →
      YouTube.scanAfterLiteral "youtu.be/".toList '?' s.toList = some cap →
      YouTube.extractVideoId (some s) = some (String.mk cap)) ∧
    (∀ s cap, YouTube.scanWatchParam s.toList = none →
      YouTube.scanAfterLiteral "youtu.be/".toList '?' s.toList = none →
      YouTube.scanAfterLiteral "/embed/".toList '?' s.toList = some cap →
      YouTube.extractVideoId (some s) = some (String.mk cap)) ∧
    (∀ s, YouTube.scanWatchParam s.toList = none →
      YouTube.scanAfterLiteral "youtu.be/".toList '?' s.toList = none →
      YouTube.scanAfterLiteral "/embed/".toList '?' s.toList = none →
      YouTube.extractVideoId (some s) = none) ∧
    YouTube.extractVideoId
        (some "https://www.youtube.com/embed/abc123def45?v=dQw4w9WgXcQ")
      = some "dQw4w9WgXcQ" := by
  refine ⟨rfl, rfl, ?_, ?_, ?_, ?_, by decide⟩
  · intro s cap h1
    by_cases hs : s = ""
    · subst hs
      have h0 : YouTube.scanWatchParam ("" : String).toList = none := rfl
      rw [h0] at h1
      cases h1
    · simp only [YouTube.extractVideoId]
      rw [if_neg hs, h1]
  · intro s cap h1 h2
    by_cases hs : s = ""
    · subst hs
      have h0 : YouTube.scanAfterLiteral "youtu.be/".toList '?' ("" : String).toList
          = none := rfl
      rw [h0] at h2
      cases h2
    · simp only [YouTube.extractVideoId]
      rw [if_neg hs, h1, h2]
  · intro s cap h1 h2 h3
    by_cases hs : s = ""
    · subst hs
      have h0 : YouTube.scanAfterLiteral "/embed/".toList '?' ("" : String).toList
          = none := rfl
      rw [h0] at h3
      cases h3
    · simp only [YouTube.extractVideoId]
      rw [if_neg hs, h1, h2, h3]
  · intro s h1 h2 h3
    by_cases hs : s = ""
    · subst hs; rfl
    · simp only [YouTube.extractVideoId]
      rw [if_neg hs, h1, h2, h3]

/-- C7 witness: the `v=` pattern fires on a plain watch URL. -/
theorem extractVideoId_spec_witness :
    YouTube.extractVideoId (some "https://www.youtube.com/watch?v=abc") = some "abc" := by
  have h := extractVideoId_spec.2.2.1 "https://www.youtube.com/watch?v=abc"
    "abc".toList (by decide)
  exact h

/-! ### Seen-set invariant for the YouTube collection stages -/

theorem pushNew_inv (acc : List YouTube.VideoData × List String)
    (v : Option YouTube.VideoData)
    (h1 : acc.1.map (fun x => x.video_id) = acc.2.reverse) (h2 : acc.2.Nodup) :
    (YouTube.pushNew acc v).1.map (fun x => x.video_id)
        = (YouTube.pushNew acc v).2.reverse ∧
    (YouTube.pushNew acc v).2.Nodup := by
  match v with
  | none => exact ⟨h1, h2⟩
  | some vd =>
    by_cases hm : vd.video_id ∈ acc.2
    · have he : YouTube.pushNew acc (some vd) = acc := by simp [YouTube.pushNew, hm]
      rw [he]; exact ⟨h1, h2⟩
    · have he : YouTube.pushNew acc (some vd)
          = (acc.1 ++ [vd], vd.video_id :: acc.2) := by
        simp [YouTube.pushNew, hm]
      rw [he]
      constructor
      · simp [List.map_append, h1, List.reverse_cons]
      · exact List.nodup_cons.mpr ⟨hm, h2⟩

theorem foldl_pushNew_inv {α : Type}
    (step : List YouTube.VideoData × List String → α →
      List YouTube.VideoData × List String)
    (hstep : ∀ acc x, acc.1.map (fun y => y.video_id) = acc.2.reverse → acc.2.Nodup →
      (step acc x).1.map (fun y => y.video_id) = (step acc x).2.reverse
        ∧ (step acc x).2.Nodup)
    (l : List α) :
    ∀ acc, acc.1.map (fun y => y.video_id) = acc.2.reverse → acc.2.Nodup →
      (l.foldl step acc).1.map (fun y => y.video_id) = (l.foldl step acc).2.reverse ∧
      (l.foldl step acc).2.Nodup := by
  induction l with
  | nil => intro acc h1 h2; exact ⟨h1, h2⟩
  | cons x xs ih =>
    intro acc h1 h2
    have h := hstep acc x h1 h2
    exact ih (step acc x) h.1 h.2

theorem collectStages_inv (p : YouTube.Page) :
    (YouTube.collectStages p).1.map (fun y => y.video_id)
        = (YouTube.collectStages p).2.reverse ∧
    (YouTube.collectStages p).2.Nodup := by
  have s1 := foldl_pushNew_inv (fun a l => YouTube.pushNew a (YouTube.extractVideoFromLink l))
    (fun acc x h1 h2 => pushNew_inv acc _ h1 h2) p.links ([], []) rfl List.nodup_nil
  have s2 := foldl_pushNew_inv (fun a i => YouTube.pushNew a (YouTube.extractVideoFromIframe i))
    (fun acc x h1 h2 => pushNew_inv acc _ h1 h2) p.iframes _ s1.1 s1.2
  have s3 := foldl_pushNew_inv (fun a t => YouTube.pushNew a (YouTube.extractVideoFromThumbnail t))
    (fun acc x h1 h2 => pushNew_inv acc _ h1 h2) p.thumbnails _ s2.1 s2.2
  have s4 := foldl_pushNew_inv
    (fun a s =>
      if jsIncludes s "videoId" then
        (YouTube.extractVideoFromScript s).foldl (fun a' d => YouTube.pushNew a' (some d)) a
      else a)
    (fun acc x h1 h2 => by
      by_cases hc : jsIncludes x "videoId" = true
      · simpa [hc] using foldl_pushNew_inv (fun a' d => YouTube.pushNew a' (some d))
          (fun acc' y h1' h2' => pushNew_inv acc' _ h1' h2')
          (YouTube.extractVideoFromScript x) acc h1 h2
      · simpa [hc] using And.intro h1 h2)
    p.scripts _ s3.1 s3.2
  exact s4

/-- C8: `detectAllYouTubeVideos` returns no two entries with the same
`video_id`; script-harvested entries have ids of length exactly 11; and when
the page URL carries a truthy `v` parameter whose id is not already
collected, the current video is the first element of the result. -/
theorem detectAllYouTubeVideos_spec (p : YouTube.Page) :
    ((YouTube.detectAllYouTubeVideos p).map (fun v => v.video_id)).Nodup ∧
    (∀ s d, d ∈ YouTube.extractVideoFromScript s → d.video_id.length = 11) ∧
    (∀ v, p.watch.vParam = some v → v ≠ "" →
      v ∉ (YouTube.collectStages p).2 →
      ((YouTube.detectAllYouTubeVideos p).head?.map (fun cv => cv.video_id) = some v ∧
       (YouTube.detectAllYouTubeVideos p).head?.map (fun cv => cv.is_current)
          = some true)) := by
  obtain ⟨h1, h2⟩ := collectStages_inv p
  refine ⟨?_, ?_, ?_⟩
  · simp only [YouTube.detectAllYouTubeVideos]
    cases hc : YouTube.extractCurrentVideo p.watch with
    | none =>
      rw [h1]
      exact List.nodup_reverse.mpr h2
    | some cv =>
      by_cases hm : cv.video_id ∈ (YouTube.collectStages p).2
      · simp only [hm, ite_true]
        rw [h1]
        exact List.nodup_reverse.mpr h2
      · simp only [hm, ite_false, List.map_cons]
        refine List.nodup_cons.mpr ⟨?_, ?_⟩
        · rw [h1, List.mem_reverse]
          exact hm
        · rw [h1]
          exact List.nodup_reverse.mpr h2
  · intro s d hd
    unfold YouTube.extractVideoFromScript at hd
    obtain ⟨vid, _, hv⟩ := List.mem_filterMap.mp hd
    by_cases hc : vid ≠ "" ∧ vid.length = 11
    · rw [if_pos hc] at hv
      cases hv
      exact hc.2
    · rw [if_neg hc] at hv
      cases hv
  · intro v hv hvne hnot
    have hcv : YouTube.extractCurrentVideo p.watch = some
        { video_id := v, url := p.watch.href,
          title := jsOrD p.watch.pageTitle p.watch.documentTitle,
          thumbnail := jsOrD p.watch.ogImage
            ("https://img.youtube.com/vi/" ++ v ++ "/maxresdefault.jpg"),
          channel := p.watch.channelText, duration := none,
          views := p.watch.viewsText, description := p.watch.descriptionText,
          is_current := true } := by
      simp [YouTube.extractCurrentVideo, hv, hvne]
    constructor <;> simp [YouTube.detectAllYouTubeVideos, hcv, hnot]

/-- C8 counterexample: a page whose URL carries the `v` query parameter with
the empty value: the id `""` is not collected by any stage, yet the result has
no current-video first element at all (the detector treats the falsy `v` as
absent). -/
theorem detectAllYouTubeVideos_counterexample :
    (YouTube.detectAllYouTubeVideos
        { links := [], iframes := [], thumbnails := [], scripts := [],
          watch := { vParam := some "", pageTitle := none, documentTitle := "T",
                     channelText := none, descriptionText := none, ogImage := none,
                     viewsText := none, href := "h" } }) = [] ∧
    ("" : String) ∉ (YouTube.collectStages
        { links := [], iframes := [], thumbnails := [], scripts := [],
          watch := { vParam := some "", pageTitle := none, documentTitle := "T",
                     channelText := none, descriptionText := none, ogImage := none,
                     viewsText := none, href := "h" } }).2 :=
  ⟨rfl, by decide⟩

/-- C8 witness: on a page with no links/iframes/thumbnails/scripts and
`?v=abcdefghijk`, the current video heads the result. -/
theorem detectAllYouTubeVideos_spec_witness :
    ((YouTube.detectAllYouTubeVideos
        { links := [], iframes := [], thumbnails := [], scripts := [],
          watch := { vParam := some "abcdefghijk", pageTitle := none,
                     documentTitle := "T", channelText := none,
                     descriptionText := none, ogImage := none, viewsText := none,
                     href := "https://www.youtube.com/watch?v=abcdefghijk" } }).head?.map
      (fun cv => cv.video_id)) = some "abcdefghijk" := by
  exact ((detectAllYouTubeVideos_spec _).2.2 "abcdefghijk" rfl (by decide) (by decide)).1

/-! ### Bulk-save loop lemmas -/

theorem bulkLoop_counts (userId : String) (outcomes : Nat → SmartSave.ApiOutcome) :
    ∀ (items : List MemoryPayload) (i : Nat),
      (SmartSave.bulkLoop userId outcomes items i).1
        + (SmartSave.bulkLoop userId outcomes items i).2.1.length = items.length := by
  intro items
  induction items with
  | nil => intro i; rfl
  | cons x xs ih =>
    intro i
    have hrec := ih (i + 1)
    simp only [SmartSave.bulkLoop]
    cases houtcome : outcomes i <;> simp [houtcome] <;> omega

theorem bulkLoop_user_id (userId : String) (outcomes : Nat → SmartSave.ApiOutcome) :
    ∀ (items : List MemoryPayload) (i : Nat) (q : MemoryPayload),
      q ∈ (SmartSave.bulkLoop userId outcomes items i).2.2 → q.user_id = userId := by
  intro items
  induction items with
  | nil =>
    intro i q hq
    simp [SmartSave.bulkLoop] at hq
  | cons x xs ih =>
    intro i q hq
    simp only [SmartSave.bulkLoop] at hq
    cases houtcome : outcomes i <;> rw [houtcome] at hq <;>
      rcases List.mem_cons.mp hq with rfl | hmem
    · rfl
    · exact ih (i + 1) q hmem
    · rfl
    · exact ih (i + 1) q hmem

/-- C9: `saveBulkContent` returns the error result exactly when extraction
yields no items; otherwise the summary satisfies `success ↔ saved_count > 0`,
`saved_count + failed_count = |formatted|`, `total = |items|`, and `errors`
present iff `failed_count > 0`. -/
theorem saveBulkContent_spec (detectionType : String)
    (extracted : Option SmartSave.BulkExtracted) (userId : String)
    (outcomes : Nat → SmartSave.ApiOutcome) :
    ((extracted = none ∨ ∃ ex, extracted = some ex ∧ ex.items = []) →
      (SmartSave.saveBulkContent detectionType extracted userId outcomes).1
        = .errorResult ("No " ++ detectionType ++ "s found on this page")) ∧
    (∀ ex, extracted = some ex → ex.items ≠ [] →
      ∃ s, (SmartSave.saveBulkContent detectionType extracted userId outcomes).1
          = .summary s ∧
        (s.success = true ↔ 0 < s.saved_count) ∧
        s.saved_count + s.failed_count = ex.formatted.length ∧
        s.total = ex.items.length ∧
        (s.errors.isSome ↔ 0 < s.failed_count)) := by
  constructor
  · intro h
    rcases h with h | ⟨ex, rfl, hitems⟩
    · rw [h]; rfl
    · simp [SmartSave.saveBulkContent, hitems]
  · intro ex hex hne
    subst hex
    have hempty : ex.items.isEmpty = false := by
      cases hi : ex.items
      · exact absurd hi hne
      · rfl
    refine ⟨{ success := decide (0 < (SmartSave.bulkLoop userId outcomes ex.formatted 0).1),
              saved_count := (SmartSave.bulkLoop userId outcomes ex.formatted 0).1,
              failed_count := (SmartSave.bulkLoop userId outcomes ex.formatted 0).2.1.length,
              total := ex.items.length,
              message := "Successfully saved "
                  ++ toString (SmartSave.bulkLoop userId outcomes ex.formatted 0).1
                  ++ " of " ++ toString ex.items.length ++ " " ++ detectionType ++ "s",
              errors := if 0 < (SmartSave.bulkLoop userId outcomes ex.formatted 0).2.1.length
                  then some (SmartSave.bulkLoop userId outcomes ex.formatted 0).2.1
                  else none },
            ?_, ?_, ?_, ?_, ?_⟩
    · simp [SmartSave.saveBulkContent, hempty]
    · simp
    · exact bulkLoop_counts userId outcomes ex.formatted 0
    · rfl
    · by_cases hz : 0 < (SmartSave.bulkLoop userId outcomes ex.formatted 0).2.1.length
      · simp [hz]
      · simp [hz]

/-- C9 witness: with no extraction result the bulk path returns the error
result. -/
theorem saveBulkContent_spec_witness :
    (SmartSave.saveBulkContent "video" none "user-1"
        (fun _ => SmartSave.ApiOutcome.ok)).1
      = SmartSave.BulkOutcome.errorResult "No videos found on this page" := by
  have h := (saveBulkContent_spec "video" none "user-1"
    (fun _ => SmartSave.ApiOutcome.ok)).1 (Or.inl rfl)
  simpa using h

/-- C10: every body the save paths POST carries `user_id` equal to the
caller's `userId`: the bulk loop overwrites each formatted item's `user_id`
(including the formatters' hardcoded id), and the single/note payloads set it
directly. -/
theorem userId_propagation_spec (detectionType : String)
    (extracted : Option SmartSave.BulkExtracted) (userId : String)
    (outcomes : Nat → SmartSave.ApiOutcome)
    (single : Option SmartSave.Extracted) (locationHref documentTitle : String)
    (outcome : SmartSave.ApiOutcome) (respId : String)
    (bodyInnerText : Option String) (savedAt : String) :
    (∀ q ∈ (SmartSave.saveBulkContent detectionType extracted userId outcomes).2,
        q.user_id = userId) ∧
    (∀ q, (SmartSave.saveSingleContent single locationHref documentTitle userId outcome
        respId).2 = some q → q.user_id = userId) ∧
    (∀ q, (SmartSave.savePageAsNote bodyInnerText locationHref documentTitle userId savedAt
        outcome).2 = some q → q.user_id = userId) := by
  refine ⟨?_, ?_, ?_⟩
  · intro q hq
    cases extracted with
    | none => simp [SmartSave.saveBulkContent] at hq
    | some ex =>
      by_cases hempty : ex.items.isEmpty = true
      · simp [SmartSave.saveBulkContent, hempty] at hq
      · simp only [SmartSave.saveBulkContent, hempty, Bool.false_eq_true,
          if_false] at hq
        exact bulkLoop_user_id userId outcomes ex.formatted 0 q hq
  · intro q hq
    cases single with
    | none => simp [SmartSave.saveSingleContent] at hq
    | some data =>
      cases outcome <;> simp only [SmartSave.saveSingleContent] at hq <;>
        cases hq <;> rfl
  · intro q hq
    cases outcome <;> simp only [SmartSave.savePageAsNote] at hq <;>
      cases hq <;> rfl

/-- C10 witness: a formatted video payload with the hardcoded MVP id is sent
with the caller's id instead. -/
theorem userId_propagation_spec_witness :
    ((SmartSave.saveBulkContent "video"
        (some { items := [()],
                formatted := [YouTube.formatVideoForStorage
                  { video_id := "v", url := "u", title := "T", thumbnail := "th",
                    channel := none, duration := none, views := none,
                    description := none, is_current := false }] })
        "real-user" (fun _ => SmartSave.ApiOutcome.ok)).2.map
      (fun q => q.user_id)) = ["real-user"] := by
  have h := (userId_propagation_spec "video"
    (some { items := [()],
            formatted := [YouTube.formatVideoForStorage
              { video_id := "v", url := "u", title := "T", thumbnail := "th",
                channel := none, duration := none, views := none,
                description := none, is_current := false }] })
    "real-user" (fun _ => SmartSave.ApiOutcome.ok)
    none "lh" "dt" SmartSave.ApiOutcome.ok "id" none "now").1
  have hL : (SmartSave.saveBulkContent "video"
      (some { items := [()],
              formatted := [YouTube.formatVideoForStorage
                { video_id := "v", url := "u", title := "T", thumbnail := "th",
                  channel := none, duration := none, views := none,
                  description := none, is_current := false }] })
      "real-user" (fun _ => SmartSave.ApiOutcome.ok)).2
      = [{ YouTube.formatVideoForStorage
            { video_id := "v", url := "u", title := "T", thumbnail := "th",
              channel := none, duration := none, views := none,
              description := none, is_current := false } with user_id := "real-user" }] :=
    rfl
  rw [hL] at h ⊢
  have hu := h _ (List.mem_singleton.mpr rfl)
  simp [hu]

end Synapse
